import Mathlib

/-!
Verification of the Action Gym Dialogflow fulfillment webhook.

The development shallowly embeds the fulfillment code (the complete app in
the repository: middleware, the sixteen intent handlers, the Firestore
subscriber collection and the push-notification dispatch loop) as pure Lean
functions.  Conversation state is explicit (`ConvData`), the document store
is a list of `Subscriber` records threaded through each handler, outbound
effects (messages, store writes, push posts, delivery-callback outcomes,
thrown errors) are collected in `HandlerOut`.
-/

namespace ActionGym

/-- Per-conversation session data (`conv.data`).  The code only ever stores
the fallback counter there; an absent field is modelled as `0`, matching the
JS falsy test `!conv.data.fallbackCount`. -/
structure ConvData where
  fallbackCount : Nat
deriving DecidableEq, Repr

/-- A subscriber record in the `users` Firestore collection: the two fields
written by `configurePushNotifications` (`intent` and `userId`). -/
structure Subscriber where
  intent : String
  userId : String
deriving DecidableEq, Repr

/-- Target of a push notification (`notification.target`). -/
structure NotificationTarget where
  userId : String
  intent : String
deriving DecidableEq, Repr

/-- A push notification value as built in `cancelClass`: a fixed user-visible
title and a per-subscriber target. -/
structure PushNotification where
  title : String
  target : NotificationTarget
deriving DecidableEq, Repr

/-- An outbound conversational element: `conv.ask` text, `conv.close` text,
a `Suggestions` chip list, or the helper payloads sent with `conv.ask`. -/
inductive Msg where
  | ask (text : String)
  | close (text : String)
  | suggestions (chips : List String)
  | updatePermission (intent : String)
  | registerUpdate (intent : String) (frequency : String)
deriving DecidableEq, Repr

/-- Result of the HTTP call made by `request.post`, as seen by its callback
on success. -/
structure HttpResponse where
  statusCode : Nat
  statusMessage : String
  body : String
deriving DecidableEq, Repr

/-- Observable outcome of one `request.post` delivery callback: the
`console.log` lines it emits and the error it throws, if any. -/
structure CallbackOut where
  logs : List String
  thrown : Option String
deriving DecidableEq, Repr

/-- The per-subscriber delivery callback in `cancelClass`: on error it throws
`API request error: ...` (and logs nothing); on success it logs the status
line and the JSON body. -/
def deliveryCallback (result : Except String HttpResponse) : CallbackOut :=
  match result with
  | Except.error e => { logs := [], thrown := some ("API request error: " ++ e) }
  | Except.ok r =>
      { logs := [toString r.statusCode ++ ": " ++ r.statusMessage, r.body],
        thrown := none }

/-- A schedule entry from `schedule.json`: class name and start time for one
day. -/
structure ScheduleEntry where
  name : String
  startTime : String
deriving DecidableEq, Repr

/-- Everything a turn request carries into a handler: platform arguments,
slot parameters, client capabilities, the current store contents and the
outcomes of the external calls the handler may make. -/
structure TurnInput where
  screen : Bool
  dayParam : Option String
  today : Fin 7
  sched : String → Option (List ScheduleEntry)
  repromptCount : Option Int
  isFinalReprompt : Bool
  permission : Bool
  updatesUserId : Option String
  conversationId : String
  registeredOk : Bool
  store : List Subscriber
  authRes : Except String String
  queryErr : Option String
  deliver : PushNotification → Except String HttpResponse

/-- Everything a handler produces: the session data after the turn, the
emitted conversational elements, whether `conv.close` ended the session, the
store contents after the turn, the push posts issued, the outcome of each
delivery callback, and the error thrown by the handler (if any). -/
structure HandlerOut where
  data : ConvData
  messages : List Msg
  sessionEnded : Bool
  store : List Subscriber
  posts : List PushNotification
  callbackOuts : List CallbackOut
  thrown : Option String

/-- Builds the common handler outcome: messages only, store untouched, no
posts, nothing thrown. -/
def replyOut (inp : TurnInput) (d : ConvData) (msgs : List Msg)
    (ended : Bool) : HandlerOut :=
  { data := d, messages := msgs, sessionEnded := ended, store := inp.store,
    posts := [], callbackOuts := [], thrown := none }

-- Suggestion chip titles (the `Suggestion` constant object).
namespace Suggestion

def HOURS : String := "Ask about hours"
def CLASSES : String := "Learn about classes"
def REMINDER : String := "Set reminders"
def CANCELLATION : String := "Class cancellation"
def DAILY_UPDATE : String := "Send daily updates"
def ROUTINES : String := "Set up routines"
def SEND_NOTIFICATIONS : String := "Send notifications"
def YES : String := "Sure!"
def NO : String := "No thanks"

end Suggestion

/-- Days of the week (the `DAYS` array), indexed by `Date.getDay()`:
0 is Sunday through 6 is Saturday. -/
def DAYS : List String :=
  ["Sunday", "Monday", "Tuesday", "Wednesday", "Thursday", "Friday",
   "Saturday"]

/-- The middleware that runs before every intent handler: it resets the
fallback count to 0 when the count is falsy or the intent is anything other
than the fallback intent (`!conv.data.fallbackCount || !(conv.intent ===
'fallback')`). -/
def middleware (intent : String) (d : ConvData) : ConvData :=
  if d.fallbackCount = 0 ∨ ¬ intent = "fallback" then { fallbackCount := 0 }
  else d

def welcomeMessage : String :=
  "Welcome to Action Gym, your local gym here to support your health " ++
  "goals. You can ask me about our hours or what classes we offer each day."

/-- The `welcome` intent handler. -/
def welcomeHandler (inp : TurnInput) (d : ConvData) : HandlerOut :=
  replyOut inp d
    ([Msg.ask welcomeMessage] ++
      (if inp.screen then
        [Msg.suggestions [Suggestion.HOURS, Suggestion.CLASSES,
          Suggestion.CANCELLATION]]
      else []))
    false

/-- The `quit` intent handler: closes the session. -/
def quitHandler (inp : TurnInput) (d : ConvData) : HandlerOut :=
  replyOut inp d [Msg.close "Great chatting with you!"] true

def hoursMessage : String :=
  "Our free weights and machines are available from 5am - 10pm, seven " ++
  "days a week. Can I help you with anything else?"

/-- The `hours` intent handler. -/
def hoursHandler (inp : TurnInput) (d : ConvData) : HandlerOut :=
  replyOut inp d
    ([Msg.ask hoursMessage] ++
      (if inp.screen then [Msg.suggestions [Suggestion.CLASSES]] else []))
    false

/-- One step of JS `Set` construction: insert an element unless already
present, preserving insertion order. -/
def jsSetInsert (acc : List String) (x : String) : List String :=
  if x ∈ acc then acc else acc ++ [x]

/-- `[...new Set(l)]`: iterate the list in order, inserting each element into
the set; the spread preserves insertion order. -/
def jsSetOfList (l : List String) : List String :=
  l.foldl jsSetInsert []

/-- The deduplicated, comma-joined class list string built by the `classList`
handler from the schedule entries of one day. -/
def classesString (entries : List ScheduleEntry) : String :=
  String.intercalate ", "
    (jsSetOfList (entries.map (fun d => d.name ++ " at " ++ d.startTime)))

/-- Day resolution at the top of `classList`: a missing or empty (falsy) day
parameter is replaced by the current day of the week. -/
def resolveDay (dayParam : Option String) (today : Fin 7) : String :=
  match dayParam with
  | some day => if day = "" then DAYS.getD today.val "" else day
  | none => DAYS.getD today.val ""

/-- Error produced when `schedule.days[day]` is `undefined` and the handler
calls `.map` on it. -/
def missingDayError : String :=
  "TypeError: Cannot read property \x27map\x27 of undefined"

/-- The `classList` intent handler: resolve the day, look it up in the
schedule (an absent day key throws, unguarded), build the deduplicated class
list and reply. -/
def classListHandler (inp : TurnInput) (d : ConvData) : HandlerOut :=
  let day := resolveDay inp.dayParam inp.today
  match inp.sched day with
  | none => { replyOut inp d [] false with thrown := some missingDayError }
  | some entries =>
      let classesMessage :=
        "On " ++ day ++ " we offer the following classes: " ++
        classesString entries ++
        ". If you\x27d like, I can send you reminders about our classes. " ++
        "Can I help you with anything else?"
      replyOut inp d
        ([Msg.ask classesMessage] ++
          (if inp.screen then
            [Msg.suggestions [Suggestion.HOURS, Suggestion.REMINDER,
              Suggestion.CANCELLATION]]
          else []))
        false

/-- The `noInput` intent handler: reprompt twice by count, close on the
final reprompt, and otherwise emit nothing.  `repromptCount` is the
`parseInt` result (`none` models `NaN`). -/
def noInputHandler (inp : TurnInput) (d : ConvData) : HandlerOut :=
  if inp.repromptCount = some 0 then
    replyOut inp d [Msg.ask "Sorry, I can\x27t hear you."] false
  else if inp.repromptCount = some 1 then
    replyOut inp d [Msg.ask "I\x27m sorry, I still can\x27t hear you."] false
  else if inp.isFinalReprompt then
    replyOut inp d
      [Msg.close ("I\x27m sorry, I\x27m having trouble here. " ++
        "Maybe we should try this again later.")]
      true
  else
    replyOut inp d [] false

def fallbackMild : String := "Sorry, what was that?"

def fallbackDetailed : String :=
  "I didn\x27t quite get that. I can tell you our hours or what classes " ++
  "we offer each day."

def fallbackClosing : String :=
  "Sorry, I\x27m still having trouble. So let\x27s stop here for now. Bye."

/-- The `fallback` intent handler: increment the counter, reprompt mildly at
1, reprompt with the available topics at 2, and close the session
otherwise. -/
def fallbackHandler (inp : TurnInput) (d : ConvData) : HandlerOut :=
  let count := d.fallbackCount + 1
  if count = 1 then
    replyOut inp { fallbackCount := count } [Msg.ask fallbackMild] false
  else if count = 2 then
    replyOut inp { fallbackCount := count } [Msg.ask fallbackDetailed] false
  else
    replyOut inp { fallbackCount := count } [Msg.close fallbackClosing] true

/-- The `reminder` intent handler. -/
def reminderHandler (inp : TurnInput) (d : ConvData) : HandlerOut :=
  replyOut inp d
    ([Msg.ask ("Great! I can send you the list of classes by sending you " ++
      "a daily updates. Let me know if you want me to send these to you.")] ++
      (if inp.screen then [Msg.suggestions [Suggestion.DAILY_UPDATE]]
       else []))
    false

/-- The `notification` intent handler. -/
def notificationHandler (inp : TurnInput) (d : ConvData) : HandlerOut :=
  replyOut inp d
    ([Msg.ask ("I can support you by sending you notifications when " ++
      "classes get cancelled due to emergencies. Let me know if you want " ++
      "me to send these to you.")] ++
      (if inp.screen then [Msg.suggestions [Suggestion.SEND_NOTIFICATIONS]]
       else []))
    false

/-- The `setupPushNotifications` intent handler: asks for the update
permission targeting the `classCanceled` intent. -/
def setupPushNotificationsHandler (inp : TurnInput) (d : ConvData) :
    HandlerOut :=
  replyOut inp d
    [Msg.ask "Update permission for setting up push notifications",
     Msg.updatePermission "classCanceled"]
    false

/-- User-identifier resolution in `configurePushNotifications`: prefer the
`UPDATES_USER_ID` argument, falling back to the conversation id when the
argument is absent or falsy (empty). -/
def resolveUserId (updatesUserId : Option String) (conversationId : String) :
    String :=
  match updatesUserId with
  | some u => if u = "" then conversationId else u
  | none => conversationId

def pushOptInSuccess : String :=
  "Cool, I\x27ll notify you whenever there is a cancelation. Would you " ++
  "like anything else?"

def pushOptInDecline : String :=
  "Okay, I won\x27t notify you. Would you like anything else?"

/-- The `configurePushNotifications` intent handler: with the permission
granted, add a `{intent: classCanceled, userId}` record to the `users`
collection and confirm; otherwise decline and write nothing. -/
def configurePushNotificationsHandler (inp : TurnInput) (d : ConvData) :
    HandlerOut :=
  if inp.permission then
    { replyOut inp d [Msg.ask pushOptInSuccess] false with
        store := inp.store ++
          [{ intent := "classCanceled",
             userId := resolveUserId inp.updatesUserId inp.conversationId }] }
  else
    replyOut inp d [Msg.ask pushOptInDecline] false

/-- The `classCanceled` intent handler (triggered by tapping the push
notification). -/
def classCanceledHandler (inp : TurnInput) (d : ConvData) : HandlerOut :=
  replyOut inp d [Msg.ask "A class was canceled."] false

/-- The `setupUpdates` intent handler. -/
def setupUpdatesHandler (inp : TurnInput) (d : ConvData) : HandlerOut :=
  replyOut inp d [Msg.registerUpdate "classList" "DAILY"] false

/-- The `configureUpdates` intent handler. -/
def configureUpdatesHandler (inp : TurnInput) (d : ConvData) : HandlerOut :=
  replyOut inp d
    ([Msg.ask (if inp.registeredOk then
        "Gotcha, I\x27ll send you an update everyday with the list of " ++
        "classes. Anything else I can help you with?"
      else
        "Ok, I won\x27t send you daily updates. Anything else I can help " ++
        "you with?")] ++
      (if inp.screen then
        [Msg.suggestions [Suggestion.HOURS, Suggestion.CLASSES,
          Suggestion.REMINDER, Suggestion.CANCELLATION]]
      else []))
    false

/-- The `setupRoutine` intent handler. -/
def setupRoutineHandler (inp : TurnInput) (d : ConvData) : HandlerOut :=
  replyOut inp d [Msg.registerUpdate "classList" "ROUTINES"] false

/-- The `configureRoutine` intent handler. -/
def configureRoutineHandler (inp : TurnInput) (d : ConvData) : HandlerOut :=
  replyOut inp d
    ([Msg.ask "Anything else I can help you with?"] ++
      (if inp.screen then
        [Msg.suggestions [Suggestion.HOURS, Suggestion.CLASSES,
          Suggestion.REMINDER, Suggestion.SEND_NOTIFICATIONS]]
      else []))
    false

/-- Subscribers matched by the dispatch query
`where('intent', '==', 'classCanceled')`. -/
def matchingSubscribers (store : List Subscriber) : List Subscriber :=
  store.filter (fun u => decide (u.intent = "classCanceled"))

/-- The push notification built for one subscriber in the dispatch loop. -/
def cancelClassNotification (u : Subscriber) : PushNotification :=
  { title := "Notification Title",
    target := { userId := u.userId, intent := u.intent } }

def cancelConfirm : String :=
  "A notification has been sent to all subscribed users."

/-- The `cancelClass` intent handler: authenticate, query the subscribers of
`classCanceled` and post one notification per match; the confirmation reply
is sent synchronously, independent of the asynchronous dispatch.  An
authentication or query failure throws inside the callback chain; a
per-delivery failure surfaces in that delivery\x27s `CallbackOut`. -/
def cancelClassHandler (inp : TurnInput) (d : ConvData) : HandlerOut :=
  match inp.authRes with
  | Except.error e =>
      { replyOut inp d [Msg.ask cancelConfirm] false with
          thrown := some ("Auth error: " ++ e) }
  | Except.ok _tokens =>
      match inp.queryErr with
      | some e =>
          { replyOut inp d [Msg.ask cancelConfirm] false with
              thrown := some ("Firestore query error: " ++ e) }
      | none =>
          let posts := (matchingSubscribers inp.store).map
            cancelClassNotification
          { replyOut inp d [Msg.ask cancelConfirm] false with
              posts := posts,
              callbackOuts :=
                posts.map (fun n => deliveryCallback (inp.deliver n)) }

/-- One full turn of the app: run the middleware, then dispatch by intent
name to the registered handler.  An intent with no registered handler is
rejected by the platform (no handler body runs). -/
def handleTurn (intent : String) (inp : TurnInput) (d0 : ConvData) :
    HandlerOut :=
  let d := middleware intent d0
  match intent with
  | "welcome" => welcomeHandler inp d
  | "quit" => quitHandler inp d
  | "hours" => hoursHandler inp d
  | "classList" => classListHandler inp d
  | "noInput" => noInputHandler inp d
  | "fallback" => fallbackHandler inp d
  | "reminder" => reminderHandler inp d
  | "notification" => notificationHandler inp d
  | "setupPushNotifications" => setupPushNotificationsHandler inp d
  | "configurePushNotifications" => configurePushNotificationsHandler inp d
  | "classCanceled" => classCanceledHandler inp d
  | "setupUpdates" => setupUpdatesHandler inp d
  | "configureUpdates" => configureUpdatesHandler inp d
  | "setupRoutine" => setupRoutineHandler inp d
  | "configureRoutine" => configureRoutineHandler inp d
  | "cancelClass" => cancelClassHandler inp d
  | _ => { replyOut inp d [] false with thrown := some "no matching intent" }

/-- A concrete turn input used to instantiate the theorems: no screen, no
slot parameters, an empty schedule and store, successful authentication and
a failing delivery transport. -/
def baseInput : TurnInput :=
  { screen := false, dayParam := none, today := 0, sched := fun _ => none,
    repromptCount := none, isFinalReprompt := false, permission := false,
    updatesUserId := none, conversationId := "conv-1", registeredOk := false,
    store := [], authRes := Except.ok "token", queryErr := none,
    deliver := fun _ => Except.error "ECONNRESET" }

/-- A concrete subscriber of the cancellation topic. -/
def subAlice : Subscriber :=
  { intent := "classCanceled", userId := "user-alice" }

/-- A concrete dispatch input: one subscribed user, failing delivery. -/
def dispatchInput : TurnInput := { baseInput with store := [subAlice] }

/-- Specification-side deduplication, written from the spec\x27s words: keep
the first occurrence of each string, in first-seen order. -/
def dedupFirstSpec : List String → List String
  | [] => []
  | x :: xs => x :: dedupFirstSpec (xs.filter (fun y => decide (¬ y = x)))
termination_by l => l.length
decreasing_by
  simp only [List.length_cons]
  exact Nat.lt_succ_of_le (List.length_filter_le _ xs)

theorem foldl_jsSetInsert (l : List String) : ∀ acc : List String,
    l.foldl jsSetInsert acc =
      acc ++ dedupFirstSpec (l.filter (fun y => decide (¬ y ∈ acc))) := by
  induction l with
  | nil => intro acc; simp [dedupFirstSpec]
  | cons x xs ih =>
    intro acc
    by_cases hx : x ∈ acc
    · have h1 : jsSetInsert acc x = acc := by simp [jsSetInsert, hx]
      have h2 : (x :: xs).filter (fun y => decide (¬ y ∈ acc)) =
          xs.filter (fun y => decide (¬ y ∈ acc)) := by
        simp [List.filter_cons, hx]
      rw [List.foldl_cons, h1, h2, ih]
    · have h1 : jsSetInsert acc x = acc ++ [x] := by simp [jsSetInsert, hx]
      have h2 : (x :: xs).filter (fun y => decide (¬ y ∈ acc)) =
          x :: xs.filter (fun y => decide (¬ y ∈ acc)) := by
        simp [List.filter_cons, hx]
      rw [List.foldl_cons, h1, ih, h2, dedupFirstSpec]
      rw [List.append_assoc, List.singleton_append]
      congr 2
      rw [List.filter_filter]
      congr 1
      apply List.filter_congr
      intro y _
      by_cases hyx : y = x
      · simp [hyx, hx]
      · by_cases hya : y ∈ acc <;> simp [hyx, hya]

/-- The JS `Set` spread refines the spec-side first-occurrence
deduplication. -/
theorem jsSetOfList_eq_dedupFirstSpec (l : List String) :
    jsSetOfList l = dedupFirstSpec l := by
  have h := foldl_jsSetInsert l []
  simpa [jsSetOfList] using h

theorem middleware_ne (intent : String) (d : ConvData)
    (h : ¬ intent = "fallback") :
    middleware intent d = { fallbackCount := 0 } := by
  simp [middleware, h]

theorem welcomeHandler_data (inp : TurnInput) (d : ConvData) :
    (welcomeHandler inp d).data = d := rfl

theorem welcomeHandler_store (inp : TurnInput) (d : ConvData) :
    (welcomeHandler inp d).store = inp.store := rfl

theorem quitHandler_data (inp : TurnInput) (d : ConvData) :
    (quitHandler inp d).data = d := rfl

theorem quitHandler_store (inp : TurnInput) (d : ConvData) :
    (quitHandler inp d).store = inp.store := rfl

theorem hoursHandler_data (inp : TurnInput) (d : ConvData) :
    (hoursHandler inp d).data = d := rfl

theorem hoursHandler_store (inp : TurnInput) (d : ConvData) :
    (hoursHandler inp d).store = inp.store := rfl

theorem classListHandler_data (inp : TurnInput) (d : ConvData) :
    (classListHandler inp d).data = d := by
  rcases hs : inp.sched (resolveDay inp.dayParam inp.today) with _ | entries <;>
    simp [classListHandler, hs, replyOut]

theorem classListHandler_store (inp : TurnInput) (d : ConvData) :
    (classListHandler inp d).store = inp.store := by
  rcases hs : inp.sched (resolveDay inp.dayParam inp.today) with _ | entries <;>
    simp [classListHandler, hs, replyOut]

theorem noInputHandler_data (inp : TurnInput) (d : ConvData) :
    (noInputHandler inp d).data = d := by
  simp only [noInputHandler]
  split
  · rfl
  split
  · rfl
  split <;> rfl

theorem noInputHandler_store (inp : TurnInput) (d : ConvData) :
    (noInputHandler inp d).store = inp.store := by
  simp only [noInputHandler]
  split
  · rfl
  split
  · rfl
  split <;> rfl

theorem fallbackHandler_store (inp : TurnInput) (d : ConvData) :
    (fallbackHandler inp d).store = inp.store := by
  simp only [fallbackHandler]
  split
  · rfl
  split <;> rfl

theorem reminderHandler_data (inp : TurnInput) (d : ConvData) :
    (reminderHandler inp d).data = d := rfl

theorem reminderHandler_store (inp : TurnInput) (d : ConvData) :
    (reminderHandler inp d).store = inp.store := rfl

theorem notificationHandler_data (inp : TurnInput) (d : ConvData) :
    (notificationHandler inp d).data = d := rfl

theorem notificationHandler_store (inp : TurnInput) (d : ConvData) :
    (notificationHandler inp d).store = inp.store := rfl

theorem setupPushNotificationsHandler_data (inp : TurnInput) (d : ConvData) :
    (setupPushNotificationsHandler inp d).data = d := rfl

theorem setupPushNotificationsHandler_store (inp : TurnInput)
    (d : ConvData) :
    (setupPushNotificationsHandler inp d).store = inp.store := rfl

theorem configurePushNotificationsHandler_data (inp : TurnInput)
    (d : ConvData) : (configurePushNotificationsHandler inp d).data = d := by
  by_cases hp : inp.permission <;>
    simp [configurePushNotificationsHandler, hp, replyOut]

theorem configurePushNotificationsHandler_store (inp : TurnInput)
    (d : ConvData) :
    (configurePushNotificationsHandler inp d).store =
      if inp.permission then
        inp.store ++
          [{ intent := "classCanceled",
             userId := resolveUserId inp.updatesUserId inp.conversationId }]
      else inp.store := by
  by_cases hp : inp.permission <;>
    simp [configurePushNotificationsHandler, hp, replyOut]

theorem classCanceledHandler_data (inp : TurnInput) (d : ConvData) :
    (classCanceledHandler inp d).data = d := rfl

theorem classCanceledHandler_store (inp : TurnInput) (d : ConvData) :
    (classCanceledHandler inp d).store = inp.store := rfl

theorem setupUpdatesHandler_data (inp : TurnInput) (d : ConvData) :
    (setupUpdatesHandler inp d).data = d := rfl

theorem setupUpdatesHandler_store (inp : TurnInput) (d : ConvData) :
    (setupUpdatesHandler inp d).store = inp.store := rfl

theorem configureUpdatesHandler_data (inp : TurnInput) (d : ConvData) :
    (configureUpdatesHandler inp d).data = d := rfl

theorem configureUpdatesHandler_store (inp : TurnInput) (d : ConvData) :
    (configureUpdatesHandler inp d).store = inp.store := rfl

theorem setupRoutineHandler_data (inp : TurnInput) (d : ConvData) :
    (setupRoutineHandler inp d).data = d := rfl

theorem setupRoutineHandler_store (inp : TurnInput) (d : ConvData) :
    (setupRoutineHandler inp d).store = inp.store := rfl

theorem configureRoutineHandler_data (inp : TurnInput) (d : ConvData) :
    (configureRoutineHandler inp d).data = d := rfl

theorem configureRoutineHandler_store (inp : TurnInput) (d : ConvData) :
    (configureRoutineHandler inp d).store = inp.store := rfl

theorem cancelClassHandler_data (inp : TurnInput) (d : ConvData) :
    (cancelClassHandler inp d).data = d := by
  rcases ha : inp.authRes with e | tok <;>
    rcases hq : inp.queryErr with _ | e2 <;>
    simp [cancelClassHandler, ha, hq, replyOut]

theorem cancelClassHandler_store (inp : TurnInput) (d : ConvData) :
    (cancelClassHandler inp d).store = inp.store := by
  rcases ha : inp.authRes with e | tok <;>
    rcases hq : inp.queryErr with _ | e2 <;>
    simp [cancelClassHandler, ha, hq, replyOut]

theorem handleTurn_store (intent : String) (inp : TurnInput)
    (d0 : ConvData) :
    (handleTurn intent inp d0).store =
      if intent = "configurePushNotifications" ∧ inp.permission then
        inp.store ++
          [{ intent := "classCanceled",
             userId := resolveUserId inp.updatesUserId inp.conversationId }]
      else inp.store := by
  simp only [handleTurn]
  split <;>
    simp_all [welcomeHandler_store, quitHandler_store, hoursHandler_store,
      classListHandler_store, noInputHandler_store, fallbackHandler_store,
      reminderHandler_store, notificationHandler_store,
      setupPushNotificationsHandler_store,
      configurePushNotificationsHandler_store, classCanceledHandler_store,
      setupUpdatesHandler_store, configureUpdatesHandler_store,
      setupRoutineHandler_store, configureRoutineHandler_store,
      cancelClassHandler_store, replyOut]

/-- Claim C1: starting from fallback count 0, a run of consecutive fallback
turns emits the mild reprompt on the first turn, the detailed reprompt
listing the available topics on the second, and the closing message on the
third; the session ends exactly at the third consecutive fallback and not
before. -/
theorem fallback_escalation_order (i1 i2 i3 : TurnInput) :
    (handleTurn "fallback" i1 { fallbackCount := 0 }).messages =
      [Msg.ask fallbackMild] ∧
    (handleTurn "fallback" i1 { fallbackCount := 0 }).sessionEnded = false ∧
    (handleTurn "fallback" i2
        (handleTurn "fallback" i1 { fallbackCount := 0 }).data).messages =
      [Msg.ask fallbackDetailed] ∧
    (handleTurn "fallback" i2
        (handleTurn "fallback" i1 { fallbackCount := 0 }).data).sessionEnded =
      false ∧
    (handleTurn "fallback" i3
        (handleTurn "fallback" i2
          (handleTurn "fallback" i1
            { fallbackCount := 0 }).data).data).messages =
      [Msg.close fallbackClosing] ∧
    (handleTurn "fallback" i3
        (handleTurn "fallback" i2
          (handleTurn "fallback" i1
            { fallbackCount := 0 }).data).data).sessionEnded = true :=
  ⟨rfl, rfl, rfl, rfl, rfl, rfl⟩

/-- Claim C5: any turn whose intent is not the fallback intent leaves the
fallback counter at 0, regardless of its value before the turn. -/
theorem nonfallback_turn_resets_counter (intent : String) (inp : TurnInput)
    (d0 : ConvData) (h : intent ≠ "fallback") :
    (handleTurn intent inp d0).data.fallbackCount = 0 := by
  simp only [handleTurn]
  split <;>
    simp_all [welcomeHandler_data, quitHandler_data, hoursHandler_data,
      classListHandler_data, noInputHandler_data, reminderHandler_data,
      notificationHandler_data, setupPushNotificationsHandler_data,
      configurePushNotificationsHandler_data, classCanceledHandler_data,
      setupUpdatesHandler_data, configureUpdatesHandler_data,
      setupRoutineHandler_data, configureRoutineHandler_data,
      cancelClassHandler_data, middleware_ne, replyOut]

/-- Witness for C5 at a concrete non-fallback intent and a nonzero prior
counter value. -/
theorem nonfallback_turn_resets_counter_witness :
    ("welcome" : String) ≠ "fallback" ∧
    (handleTurn "welcome" baseInput { fallbackCount := 5 }).data.fallbackCount
      = 0 :=
  ⟨by decide,
   nonfallback_turn_resets_counter "welcome" baseInput { fallbackCount := 5 }
     (by decide)⟩

/-- Claim C6: the class-list string deduplicates repeated name-at-time
strings preserving first-occurrence order and joins them with a comma
separator; on the entries [(Yoga,6am), (Yoga,6am), (Spin,7am)] it produces
the string listing Yoga at 6am and Spin at 7am once each. -/
theorem class_list_dedup_first_order (entries : List ScheduleEntry) :
    classesString entries =
      String.intercalate ", "
        (dedupFirstSpec
          (entries.map (fun d => d.name ++ " at " ++ d.startTime))) ∧
    classesString
        [{ name := "Yoga", startTime := "6am" },
         { name := "Yoga", startTime := "6am" },
         { name := "Spin", startTime := "7am" }] =
      "Yoga at 6am, Spin at 7am" := by
  constructor
  · simp [classesString, jsSetOfList_eq_dedupFirstSpec]
  · decide

/-- Claim C9: a class-list request with no day parameter resolves the day to
the current day of the week, and the handler behaves exactly as if that day
had been supplied. -/
theorem class_list_default_day (inp : TurnInput) (d : ConvData) :
    resolveDay none inp.today = DAYS.getD inp.today.val "" ∧
    classListHandler { inp with dayParam := none } d =
      classListHandler
        { inp with dayParam := some (DAYS.getD inp.today.val "") } d := by
  refine ⟨rfl, ?_⟩
  by_cases h : DAYS.getD inp.today.val "" = "" <;>
    simp [classListHandler, resolveDay, h, replyOut]

/-- Claim C8: when the resolved day has no entry in the schedule data, the
class-list handler fails at the lookup with an unhandled error, emitting no
message. -/
theorem missing_day_unhandled_error (inp : TurnInput) (d : ConvData)
    (h : inp.sched (resolveDay inp.dayParam inp.today) = none) :
    (classListHandler inp d).thrown = some missingDayError ∧
    (classListHandler inp d).messages = [] := by
  constructor <;> simp [classListHandler, h, replyOut]

/-- Witness for C8: the empty schedule has no entry for the resolved day and
the handler throws. -/
theorem missing_day_unhandled_error_witness :
    baseInput.sched (resolveDay baseInput.dayParam baseInput.today) = none ∧
    (classListHandler baseInput { fallbackCount := 0 }).thrown =
      some missingDayError ∧
    (classListHandler baseInput { fallbackCount := 0 }).messages = [] :=
  ⟨rfl,
   (missing_day_unhandled_error baseInput { fallbackCount := 0 } rfl).1,
   (missing_day_unhandled_error baseInput { fallbackCount := 0 } rfl).2⟩

/-- Claim C10: a no-input turn whose reprompt count is neither 0 nor 1
(including an unparsable count) and whose final-reprompt flag is absent or
false emits no message at all and does not end the session. -/
theorem no_input_out_of_range_silent (inp : TurnInput) (d : ConvData)
    (h0 : inp.repromptCount ≠ some 0) (h1 : inp.repromptCount ≠ some 1)
    (hf : inp.isFinalReprompt = false) :
    (noInputHandler inp d).messages = [] ∧
    (noInputHandler inp d).sessionEnded = false := by
  constructor <;> simp [noInputHandler, h0, h1, hf, replyOut]

/-- Witness for C10 at an unparsable reprompt count with the final-reprompt
flag absent. -/
theorem no_input_out_of_range_silent_witness :
    baseInput.repromptCount ≠ some 0 ∧ baseInput.repromptCount ≠ some 1 ∧
    baseInput.isFinalReprompt = false ∧
    (noInputHandler baseInput { fallbackCount := 0 }).messages = [] ∧
    (noInputHandler baseInput { fallbackCount := 0 }).sessionEnded = false :=
  ⟨by decide, by decide, rfl,
   (no_input_out_of_range_silent baseInput { fallbackCount := 0 } (by decide)
     (by decide) rfl).1,
   (no_input_out_of_range_silent baseInput { fallbackCount := 0 } (by decide)
     (by decide) rfl).2⟩

/-- Claim C3: an opt-in turn with the permission absent persists nothing and
replies with the decline message; with the permission granted it persists
exactly one record carrying the fixed cancellation topic and the resolved
user identifier (the permission-flow identifier when supplied and non-empty,
else the conversation identifier), and replies with the success message. -/
theorem push_opt_in_persistence (inp : TurnInput) (d : ConvData) :
    (configurePushNotificationsHandler inp d).store =
      (if inp.permission then
        inp.store ++
          [{ intent := "classCanceled",
             userId := resolveUserId inp.updatesUserId inp.conversationId }]
      else inp.store) ∧
    (configurePushNotificationsHandler inp d).messages =
      [Msg.ask (if inp.permission then pushOptInSuccess
                else pushOptInDecline)] ∧
    resolveUserId none inp.conversationId = inp.conversationId ∧
    (∀ u : String, resolveUserId (some u) inp.conversationId =
      if u = "" then inp.conversationId else u) := by
  refine ⟨?_, ?_, rfl, fun u => rfl⟩ <;>
    by_cases hp : inp.permission <;>
    simp [configurePushNotificationsHandler, hp, replyOut]

/-- Claim C4: a trigger-dispatch turn whose topic query matches zero
subscriber records issues zero push calls and still replies with the
confirmation message; in general, the confirmation reply is emitted
independent of every delivery result. -/
theorem dispatch_zero_subscribers (inp : TurnInput) (d : ConvData)
    (h : matchingSubscribers inp.store = []) :
    (cancelClassHandler inp d).posts = [] ∧
    (cancelClassHandler inp d).messages = [Msg.ask cancelConfirm] ∧
    (∀ (inp2 : TurnInput) (d2 : ConvData),
      (cancelClassHandler inp2 d2).messages = [Msg.ask cancelConfirm]) := by
  have hmsg : ∀ (inp2 : TurnInput) (d2 : ConvData),
      (cancelClassHandler inp2 d2).messages = [Msg.ask cancelConfirm] := by
    intro inp2 d2
    rcases ha : inp2.authRes with e | tok <;>
      rcases hq : inp2.queryErr with _ | e2 <;>
      simp [cancelClassHandler, ha, hq, replyOut]
  refine ⟨?_, hmsg inp d, hmsg⟩
  rcases ha : inp.authRes with e | tok <;>
    rcases hq : inp.queryErr with _ | e2 <;>
    simp [cancelClassHandler, ha, hq, h, replyOut]

/-- Witness for C4 on the empty store. -/
theorem dispatch_zero_subscribers_witness :
    matchingSubscribers baseInput.store = [] ∧
    (cancelClassHandler baseInput { fallbackCount := 0 }).posts = [] ∧
    (cancelClassHandler baseInput { fallbackCount := 0 }).messages =
      [Msg.ask cancelConfirm] :=
  ⟨rfl,
   (dispatch_zero_subscribers baseInput { fallbackCount := 0 } rfl).1,
   (dispatch_zero_subscribers baseInput { fallbackCount := 0 } rfl).2.1⟩

/-- Claim C7: no operation ever updates or deletes an existing subscriber
record: every turn leaves the store a prefix-extension of itself, and the
only write is the single insertion performed by the opt-in intent. -/
theorem store_never_updated_or_deleted (intent : String) (inp : TurnInput)
    (d0 : ConvData) :
    inp.store <+: (handleTurn intent inp d0).store ∧
    ((handleTurn intent inp d0).store = inp.store ∨
      ∃ r : Subscriber, (handleTurn intent inp d0).store = inp.store ++ [r] ∧
        intent = "configurePushNotifications") := by
  have hs := handleTurn_store intent inp d0
  by_cases hc : intent = "configurePushNotifications" ∧ inp.permission
  · rw [hs, if_pos hc]
    exact ⟨List.prefix_append _ _, Or.inr ⟨_, rfl, hc.1⟩⟩
  · rw [hs, if_neg hc]
    exact ⟨List.prefix_refl _, Or.inl rfl⟩

/-- Counterexample to claim C2 as stated: a failing delivery call is not
logged (the callback logs nothing and is not non-fatal: it throws). -/
theorem delivery_failure_not_logged_cex :
    ¬ ((deliveryCallback (Except.error "ECONNRESET")).logs ≠ [] ∧
       (deliveryCallback (Except.error "ECONNRESET")).thrown = none) := by
  decide

/-- Claim C2 as amended: a failing delivery call for one subscriber throws
an error from that subscriber\x27s callback instead of logging; the push
posts to all other matching subscribers are still issued (the full batch is
posted regardless of any delivery outcome) and the already-sent
conversational confirmation reply is unaffected. -/
theorem delivery_failure_throws_not_logged (inp : TurnInput) (d : ConvData)
    (tok e : String) (hA : inp.authRes = Except.ok tok)
    (hQ : inp.queryErr = none) :
    (cancelClassHandler inp d).posts =
      (matchingSubscribers inp.store).map cancelClassNotification ∧
    (cancelClassHandler inp d).callbackOuts =
      ((matchingSubscribers inp.store).map cancelClassNotification).map
        (fun n => deliveryCallback (inp.deliver n)) ∧
    (cancelClassHandler inp d).messages = [Msg.ask cancelConfirm] ∧
    deliveryCallback (Except.error e) =
      { logs := [], thrown := some ("API request error: " ++ e) } := by
  refine ⟨?_, ?_, ?_, rfl⟩ <;> simp [cancelClassHandler, hA, hQ, replyOut]

/-- Witness for the amended C2: one subscribed user, failing transport. -/
theorem delivery_failure_throws_not_logged_witness :
    dispatchInput.authRes = Except.ok "token" ∧
    dispatchInput.queryErr = none ∧
    (cancelClassHandler dispatchInput { fallbackCount := 0 }).posts =
      (matchingSubscribers dispatchInput.store).map cancelClassNotification ∧
    (cancelClassHandler dispatchInput { fallbackCount := 0 }).messages =
      [Msg.ask cancelConfirm] ∧
    deliveryCallback (Except.error "ECONNRESET") =
      { logs := [], thrown := some "API request error: ECONNRESET" } :=
  ⟨rfl, rfl,
   (delivery_failure_throws_not_logged dispatchInput { fallbackCount := 0 }
     "token" "ECONNRESET" rfl rfl).1,
   (delivery_failure_throws_not_logged dispatchInput { fallbackCount := 0 }
     "token" "ECONNRESET" rfl rfl).2.2.1,
   (delivery_failure_throws_not_logged dispatchInput { fallbackCount := 0 }
     "token" "ECONNRESET" rfl rfl).2.2.2⟩

end ActionGym
